import Mathlib

/-!
Shallow embedding of the authentication/session client of the
Video-Tracking repository (frontend `AuthService` in `src/unnamed/part_009`,
the `AdminRoute` guard in `src/unnamed/part_000`, the signup form validation
in `src/frontend/src/components/Auth/Signup.tsx`, and the reset-password page
in `src/unnamed/part_004`), together with theorems settling the frozen
claims about it.

Modelling conventions:
* JavaScript `null`/missing values become `Option`; JS truthiness of a
  nullable string (`if (x)`) is `truthy` below (non-null and non-empty).
* `localStorage` becomes the `Storage` record (only the keys the client
  reads/writes: `access_token`, `refresh_token`, `user`; the `user` entry is
  kept parsed, JSON round-tripping being invisible to the modelled logic).
* The network is an oracle `Server : Nat → Option Resp` answering the n-th
  `fetch` performed by the client; `none` models a fetch that throws.
  URL/method/body do not feed back into the oracle, so the oracle picks the
  answer purely by fetch order, which suffices for the claims.
* `async`/`await` is sequentialized; the one un-awaited call in the source
  (`this.logout()` inside `request`'s failed-refresh branch) is modelled as
  a sequential call.
* The mutually recursive `request`/`refreshAccessToken`/`logout` trio is
  embedded with an explicit fuel parameter; a result of `none` means the
  unfolding did not terminate within the given fuel.
-/

namespace VideoTracking

/-- JS truthiness of a nullable string: `null`/`undefined` and `""` are falsy. -/
def truthy : Option String → Bool
  | none => false
  | some s => !(s == "")

/-- The `User` object stored under the `user` key (part_009 `interface User`);
only the `role` field is read by the modelled operations (`hasRole`,
`AdminRoute`), the remaining fields are carried nowhere, so they are omitted. -/
structure User where
  role : String
deriving Repr, DecidableEq

/-- The `AuthResponse` shape of part_009 (the fields the client reads). -/
structure AuthResponse where
  success : Bool
  access_token : Option String
  refresh_token : Option String
  user : Option User
  message : Option String
deriving Repr, DecidableEq

/-- One HTTP response as seen through `fetch`: the `ok` flag, the numeric
status, and the parsed JSON body. -/
structure Resp where
  ok : Bool
  status : Nat
  body : AuthResponse
deriving Repr, DecidableEq

/-- The three `localStorage` entries the client manages. -/
structure Storage where
  access_token : Option String
  refresh_token : Option String
  user : Option User
deriving Repr, DecidableEq

/-- The client's state: the two in-memory token fields of `AuthService` plus
the browser storage. -/
structure ClientState where
  accessToken : Option String
  refreshToken : Option String
  storage : Storage
deriving Repr, DecidableEq

/-- The server oracle: the answer to the n-th `fetch`; `none` = fetch throws. -/
def Server : Type := Nat → Option Resp

/-- `saveTokensToStorage` (part_009): sets both in-memory tokens and writes
the `access_token` and `refresh_token` storage entries. -/
def saveTokensToStorage (st : ClientState) (accessToken refreshToken : String) :
    ClientState :=
  { st with
    accessToken := some accessToken
    refreshToken := some refreshToken
    storage := { st.storage with
      access_token := some accessToken
      refresh_token := some refreshToken } }

/-- `clearTokensFromStorage` (part_009): nulls both in-memory tokens and
removes the `access_token`, `refresh_token` and `user` storage entries. -/
def clearTokensFromStorage (st : ClientState) : ClientState :=
  { st with
    accessToken := none
    refreshToken := none
    storage := { access_token := none, refresh_token := none, user := none } }

/-- `loadTokensFromStorage` (part_009): copies the stored token entries into
the in-memory fields. -/
def loadTokensFromStorage (st : ClientState) : ClientState :=
  { st with
    accessToken := st.storage.access_token
    refreshToken := st.storage.refresh_token }

/-- The `Authorization` header `request` builds (part_009): present exactly
when the in-memory access token is truthy, and then `Bearer <token>`. -/
def buildAuthHeader (st : ClientState) : Option String :=
  match st.accessToken with
  | none => none
  | some t => if t == "" then none else some ("Bearer " ++ t)

/-- An outgoing request as the client assembles it: target endpoint, the
`Authorization` header (if any), and the `refresh_token` field of the JSON
body (if any). -/
structure BuiltRequest where
  endpoint : String
  authHeader : Option String
  bodyRefreshToken : Option String
deriving Repr, DecidableEq

/-- The request `refreshAccessToken` (part_009) sends: POST
`/api/auth/refresh`, default headers, and the refresh token in the body. -/
def refreshRequest (st : ClientState) : BuiltRequest :=
  { endpoint := "/api/auth/refresh"
    authHeader := buildAuthHeader st
    bodyRefreshToken := st.refreshToken }

/-- The request `logout` (part_009) sends: POST `/api/auth/logout`, default
headers, and the refresh token in the body. -/
def logoutRequest (st : ClientState) : BuiltRequest :=
  { endpoint := "/api/auth/logout"
    authHeader := buildAuthHeader st
    bodyRefreshToken := st.refreshToken }

mutual

/-- `AuthService.request` (part_009), fuelled. Fetches the endpoint; on an
`ok` response returns its body; on a 401 with a truthy refresh token held,
awaits `refreshAccessToken` and, if it succeeded, re-fetches the original
request and returns the retry's body (whatever its status), else runs
`logout` and throws `Session expired`; any other failure throws the body's
message. `Except.error` models a thrown error; the state and the fetch
counter are threaded through. -/
def request (fuel : Nat) (srv : Server) (st : ClientState) (k : Nat)
    (endpoint : String) : Option (Except String AuthResponse × ClientState × Nat) :=
  match fuel with
  | 0 => none
  | fuel + 1 =>
    match srv k with
    | none => some (Except.error "network error", st, k + 1)
    | some resp =>
      if resp.ok then
        some (Except.ok resp.body, st, k + 1)
      else if resp.status == 401 && truthy st.refreshToken then
        match refreshAccessToken fuel srv st (k + 1) with
        | none => none
        | some (refreshed, st1, k1) =>
          if refreshed then
            match srv k1 with
            | none => some (Except.error "network error", st1, k1 + 1)
            | some retry => some (Except.ok retry.body, st1, k1 + 1)
          else
            match logout fuel srv st1 k1 with
            | none => none
            | some (st2, k2) =>
              some (Except.error "Session expired. Please login again.", st2, k2)
      else
        some (Except.error
          ((resp.body.message).getD ("HTTP error! status: " ++ toString resp.status)),
          st, k + 1)

/-- `AuthService.refreshAccessToken` (part_009), fuelled. Returns `false`
immediately without a truthy refresh token; otherwise POSTs
`/api/auth/refresh` through `request`; on a successful body with a truthy
access token, updates the in-memory access token, the `access_token` storage
entry, and (when supplied) the `user` entry, returning `true`; every thrown
error or unsuccessful body yields `false`. -/
def refreshAccessToken (fuel : Nat) (srv : Server) (st : ClientState) (k : Nat) :
    Option (Bool × ClientState × Nat) :=
  match fuel with
  | 0 => none
  | fuel + 1 =>
    if truthy st.refreshToken then
      match request fuel srv st k "/api/auth/refresh" with
      | none => none
      | some (Except.error _, st1, k1) => some (false, st1, k1)
      | some (Except.ok response, st1, k1) =>
        if response.success && truthy response.access_token then
          some (true,
            { st1 with
              accessToken := response.access_token
              storage := { st1.storage with
                access_token := response.access_token
                user := match response.user with
                  | some u => some u
                  | none => st1.storage.user } },
            k1)
        else
          some (false, st1, k1)
    else
      some (false, st, k)

/-- `AuthService.logout` (part_009), fuelled. When a truthy refresh token is
held, POSTs `/api/auth/logout` through `request`, swallowing any thrown
error; the `finally` block always runs `clearTokensFromStorage`. -/
def logout (fuel : Nat) (srv : Server) (st : ClientState) (k : Nat) :
    Option (ClientState × Nat) :=
  match fuel with
  | 0 => none
  | fuel + 1 =>
    if truthy st.refreshToken then
      match request fuel srv st k "/api/auth/logout" with
      | none => none
      | some (_, st1, k1) => some (clearTokensFromStorage st1, k1)
    else
      some (clearTokensFromStorage st, k)

end

/-- `AuthService.login` (part_009): POSTs `/api/auth/login` through
`request`; when the body reports success and carries truthy access and
refresh tokens, saves them via `saveTokensToStorage` and stores the user
entry when present; otherwise returns the response with the state untouched
by `login` itself. -/
def login (fuel : Nat) (srv : Server) (st : ClientState) (k : Nat) :
    Option (Except String AuthResponse × ClientState × Nat) :=
  match request fuel srv st k "/api/auth/login" with
  | none => none
  | some (Except.error e, st1, k1) => some (Except.error e, st1, k1)
  | some (Except.ok response, st1, k1) =>
    if response.success && truthy response.access_token
        && truthy response.refresh_token then
      -- the guard guarantees both tokens are present, so `getD` never fires
      let st2 := saveTokensToStorage st1 ((response.access_token).getD "")
        ((response.refresh_token).getD "")
      let st3 := match response.user with
        | some u => { st2 with storage := { st2.storage with user := some u } }
        | none => st2
      some (Except.ok response, st3, k1)
    else
      some (Except.ok response, st1, k1)

/-- `AuthService.isAuthenticated` (part_009): `!!this.accessToken`. -/
def isAuthenticated (st : ClientState) : Bool :=
  truthy st.accessToken

/-- `AuthService.getCurrentUserFromStorage` (part_009): reads and parses the
`user` storage entry; a missing entry (or a parse failure) yields `null`. -/
def getCurrentUserFromStorage (st : ClientState) : Option User :=
  st.storage.user

/-- The `roleHierarchy` lookup of `hasRole` (part_009) restricted to own
keys: `{guest: 1, analyst: 2, admin: 3}[r] || 0` for `r` that is not an
inherited `Object.prototype` property name. On that domain — which covers
the fixed role set and every ordinary unknown string — the JS lookup yields
the own number or `undefined`, and `|| 0` makes the result this function's.
For the full bracket-lookup semantics, prototype chain included, see
`roleHierarchyLookup` below. -/
def roleHierarchy (role : String) : Nat :=
  if role == "guest" then 1
  else if role == "analyst" then 2
  else if role == "admin" then 3
  else 0

/-- `AuthService.hasRole` (part_009): false without a stored user, else
compares the hierarchy level of the user's role with the required role's. -/
def hasRole (st : ClientState) (requiredRole : String) : Bool :=
  match getCurrentUserFromStorage st with
  | none => false
  | some user =>
    let userRoleLevel := roleHierarchy user.role
    let requiredRoleLevel := roleHierarchy requiredRole
    decide (userRoleLevel ≥ requiredRoleLevel)

/-- `AuthService.isAdmin` (part_009). -/
def isAdmin (st : ClientState) : Bool :=
  hasRole st "admin"

/-- `AuthService.isAnalyst` (part_009). -/
def isAnalyst (st : ClientState) : Bool :=
  hasRole st "analyst"

/-- The admin test of the `AdminRoute` guard (part_000): the guard redirects
away unless `user?.role === 'admin'`; with no user object, `user?.role` is
`undefined` and the guard also redirects. -/
def adminRouteAllows (user : Option User) : Bool :=
  match user with
  | none => false
  | some u => u.role == "admin"

/-- The value a JS bracket lookup on the role table can produce: an own
numeric property, a truthy non-numeric value inherited from
`Object.prototype` (a function, or the `__proto__` object), or `undefined`. -/
inductive JSLookup where
  | num (n : Nat)
  | inherited
  | undef
deriving Repr, DecidableEq

/-- The property names every plain JS object inherits from
`Object.prototype`: a bracket lookup with one of these keys on the object
literal of `hasRole` returns the inherited function (or, for `__proto__`,
the prototype object), not `undefined`. -/
def objectPrototypeKeys : List String :=
  ["constructor", "toString", "toLocaleString", "valueOf", "hasOwnProperty",
   "isPrototypeOf", "propertyIsEnumerable", "__proto__", "__defineGetter__",
   "__defineSetter__", "__lookupGetter__", "__lookupSetter__"]

/-- `roleHierarchy[r]` as JavaScript evaluates it on the object literal
`{guest: 1, analyst: 2, admin: 3}`: own keys give their number, inherited
`Object.prototype` keys give the inherited value, all other keys give
`undefined`. -/
def roleHierarchyLookup (r : String) : JSLookup :=
  if r == "guest" then JSLookup.num 1
  else if r == "analyst" then JSLookup.num 2
  else if r == "admin" then JSLookup.num 3
  else if objectPrototypeKeys.contains r then JSLookup.inherited
  else JSLookup.undef

/-- `roleHierarchy[r] || 0`: `undefined` is falsy and becomes `0`; the
numbers 1–3 and the inherited values are truthy and pass through. -/
def roleLevelJS (r : String) : JSLookup :=
  match roleHierarchyLookup r with
  | JSLookup.undef => JSLookup.num 0
  | v => v

/-- JS `a >= b` on two lookup results: with both sides numeric it compares
the numbers; any non-numeric side coerces to `NaN` (a function or object
stringifies to something non-numeric) and every `NaN` comparison is false. -/
def jsGE : JSLookup → JSLookup → Bool
  | JSLookup.num a, JSLookup.num b => decide (b ≤ a)
  | _, _ => false

/-- `AuthService.hasRole` (part_009) with the bracket lookup modelled in
full, prototype chain included: `userRoleLevel >= requiredRoleLevel` on the
two `|| 0`-defaulted lookups. On role strings that are not inherited
property names this agrees with `hasRole` above. -/
def hasRoleJS (st : ClientState) (requiredRole : String) : Bool :=
  match getCurrentUserFromStorage st with
  | none => false
  | some user => jsGE (roleLevelJS user.role) (roleLevelJS requiredRole)

/-- Contains an ASCII lowercase letter: JS `/(?=.*[a-z])/.test(s)`, which
(being unanchored) holds exactly when some character of `s` is in `[a-z]`. -/
def hasLowercase (s : String) : Bool :=
  s.toList.any fun c => decide ('a' ≤ c) && decide (c ≤ 'z')

/-- Contains an ASCII uppercase letter: JS `/(?=.*[A-Z])/.test(s)`. -/
def hasUppercase (s : String) : Bool :=
  s.toList.any fun c => decide ('A' ≤ c) && decide (c ≤ 'Z')

/-- Contains a decimal digit: JS `/(?=.*\d)/.test(s)`. -/
def hasDigit (s : String) : Bool :=
  s.toList.any fun c => decide ('0' ≤ c) && decide (c ≤ '9')

/-- JS `/\S+@\S+\.\S+/.test(s)` (the signup email check): some contiguous
substring is one-or-more non-whitespace, `@`, one-or-more non-whitespace,
`.`, one-or-more non-whitespace. Expressed over character positions: an `@`
at `i` and a `.` at `j` with `1 ≤ i`, `i + 2 ≤ j`, `j + 1 < n`, non-space
characters at `i - 1` and `j + 1`, and only non-space between them. -/
def emailRegexTest (s : String) : Bool :=
  let cs := s.toList
  let n := cs.length
  (List.range n).any fun i =>
    (List.range n).any fun j =>
      (cs.getD i ' ' == '@') && (cs.getD j ' ' == '.') &&
      decide (1 ≤ i) && decide (i + 2 ≤ j) && decide (j + 1 < n) &&
      !((cs.getD (i - 1) ' ').isWhitespace) &&
      !((cs.getD (j + 1) ' ').isWhitespace) &&
      ((List.range n).all fun m =>
        !(decide (i < m) && decide (m < j)) || !((cs.getD m ' ').isWhitespace))

/-- JS `String.prototype.trim`, modelled over the character list (Lean's
built-in `String.trim` is avoided because the kernel cannot evaluate it on
concrete strings). -/
def trimJS (s : String) : String :=
  String.mk
    (((s.toList.dropWhile Char.isWhitespace).reverse.dropWhile
      Char.isWhitespace).reverse)

namespace Signup

/-- The signup form's fields (Signup.tsx). -/
structure FormData where
  firstName : String
  lastName : String
  email : String
  password : String
  confirmPassword : String
deriving Repr, DecidableEq

/-- The field-level validation errors of the signup form; `none` = no error
recorded for that field. -/
structure Errors where
  firstName : Option String
  lastName : Option String
  email : Option String
  password : Option String
  confirmPassword : Option String
deriving Repr, DecidableEq

/-- No key was added to the errors object (`Object.keys(errors).length === 0`). -/
def Errors.isEmpty (e : Errors) : Bool :=
  e.firstName.isNone && e.lastName.isNone && e.email.isNone
    && e.password.isNone && e.confirmPassword.isNone

/-- `validateForm` of Signup.tsx: computes the per-field errors and returns
them with the overall verdict (`true` = form accepted). The password rule
here is presence plus minimum length 8 only. -/
def validateForm (f : FormData) : Errors × Bool :=
  let errors : Errors :=
    { firstName :=
        if trimJS f.firstName == "" then some "First name is required" else none
      lastName :=
        if trimJS f.lastName == "" then some "Last name is required" else none
      email :=
        if trimJS f.email == "" then some "Email is required"
        else if !emailRegexTest f.email then
          some "Please enter a valid email address"
        else none
      password :=
        if f.password == "" then some "Password is required"
        else if f.password.length < 8 then
          some "Password must be at least 8 characters long"
        else none
      confirmPassword :=
        if f.confirmPassword == "" then some "Please confirm your password"
        else if !(f.password == f.confirmPassword) then
          some "Passwords do not match"
        else none }
  (errors, errors.isEmpty)

end Signup

namespace ResetPassword

/-- The reset-password form's fields (part_004). -/
structure FormData where
  newPassword : String
  confirmPassword : String
deriving Repr, DecidableEq

/-- The field-level validation errors of the reset form. -/
structure Errors where
  newPassword : Option String
  confirmPassword : Option String
deriving Repr, DecidableEq

/-- No key was added to the errors object. -/
def Errors.isEmpty (e : Errors) : Bool :=
  e.newPassword.isNone && e.confirmPassword.isNone

/-- `validateForm` of the reset-password page (part_004): presence, minimum
length 8, then one lowercase, one uppercase, one digit, each reported under
the `newPassword` key; the confirmation must be present and match. -/
def validateForm (f : FormData) : Errors × Bool :=
  let errors : Errors :=
    { newPassword :=
        if f.newPassword == "" then some "Nova senha é obrigatória"
        else if f.newPassword.length < 8 then
          some "Senha deve ter pelo menos 8 caracteres"
        else if !hasLowercase f.newPassword then
          some "Senha deve conter pelo menos uma letra minúscula"
        else if !hasUppercase f.newPassword then
          some "Senha deve conter pelo menos uma letra maiúscula"
        else if !hasDigit f.newPassword then
          some "Senha deve conter pelo menos um número"
        else none
      confirmPassword :=
        if f.confirmPassword == "" then some "Confirmação de senha é obrigatória"
        else if !(f.newPassword == f.confirmPassword) then
          some "Senhas não coincidem"
        else none }
  (errors, errors.isEmpty)

end ResetPassword

/-- A persisted password-reset token record, after the spec's data model:
opaque token value, owner, expiry instant, consumption instant (`none` until
used), and the owner's email address. -/
structure PasswordResetToken where
  token : String
  userId : Nat
  expiresAt : Nat
  usedAt : Option Nat
  email : String
deriving Repr, DecidableEq

/-- The response shape the reset page reads from `validateResetToken`
(part_004 reads `response.success` and `response.user_email`). -/
structure ValidateResetTokenResponse where
  success : Bool
  user_email : Option String
  message : Option String
deriving Repr, DecidableEq

/-- Masking of the associated email for display, modelled from the spec's
`associatedEmailMasked`: first character, `***`, then the domain part. -/
def maskEmail (e : String) : String :=
  match e.toList with
  | [] => "***"
  | c :: _ => String.mk [c] ++ "***" ++ String.mk (e.toList.dropWhile fun x => !(x == '@'))

/-- Modelled from the spec: `AuthService.validateResetToken` is absent from
`src` (part_004 only calls it). Spec §4.4: looks the token up in the store
and fails closed — a lookup miss, an expired token (`expiresAt ≤ now`), or a
token whose `usedAt` is set all report invalid; only a live, unused token
reports valid, with the masked associated email. -/
def validateResetToken (store : List PasswordResetToken) (now : Nat)
    (token : String) : ValidateResetTokenResponse :=
  match store.find? (fun r => r.token == token) with
  | none => { success := false, user_email := none, message := some "invalid or expired token" }
  | some r =>
    if r.usedAt.isSome then
      { success := false, user_email := none, message := some "invalid or expired token" }
    else if decide (r.expiresAt ≤ now) then
      { success := false, user_email := none, message := some "invalid or expired token" }
    else
      { success := true, user_email := some (maskEmail r.email), message := none }

/-- The mount-time guard of the reset page (part_004 `validateToken` effect):
with no `token` query parameter, or a response whose `success` flag is false,
`tokenValid` stays false and the reset form is not rendered. -/
def resetPageRendersForm (urlToken : Option String)
    (store : List PasswordResetToken) (now : Nat) : Bool :=
  match urlToken with
  | none => false
  | some t => (validateResetToken store now t).success

/-! Concrete instances used in counterexamples and witnesses. -/

/-- A failure body: `success` false, nothing else set. -/
def failBody : AuthResponse :=
  { success := false, access_token := none, refresh_token := none
    user := none, message := none }

/-- A generic success body with no tokens. -/
def okBody : AuthResponse :=
  { success := true, access_token := none, refresh_token := none
    user := none, message := none }

/-- A refresh success body carrying a new access token. -/
def refreshOkBody : AuthResponse :=
  { success := true, access_token := some "B", refresh_token := none
    user := none, message := none }

/-- A server that answers every fetch — including every refresh attempt —
with HTTP 401. -/
def srv401 : Server := fun _ => some { ok := false, status := 401, body := failBody }

/-- A server that answers every fetch with HTTP 200 and a success body. -/
def srvOk : Server := fun _ => some { ok := true, status := 200, body := okBody }

/-- A server that answers every fetch with HTTP 200 but a failure body. -/
def srvFailOk : Server := fun _ => some { ok := true, status := 200, body := failBody }

/-- A server for the login counterexample: fetch 0 (the login POST) gets 401,
fetch 1 (the refresh POST) succeeds with a new access token, and fetch 2 (the
login retry) gets 401 again. -/
def srvLoginCE : Server := fun k =>
  if k == 1 then some { ok := true, status := 200, body := refreshOkBody }
  else some { ok := false, status := 401, body := failBody }

def userAdminEx : User := { role := "admin" }

def userGuestEx : User := { role := "guest" }

def userBananaEx : User := { role := "banana" }

/-- A logged-in admin client. -/
def stAdminEx : ClientState :=
  { accessToken := some "tok", refreshToken := some "ref"
    storage := { access_token := some "tok", refresh_token := some "ref"
                 user := some userAdminEx } }

/-- A logged-in guest client. -/
def stGuestEx : ClientState :=
  { accessToken := some "tok", refreshToken := some "ref"
    storage := { access_token := some "tok", refresh_token := some "ref"
                 user := some userGuestEx } }

/-- A logged-in client whose stored role string is unknown. -/
def stUnknownEx : ClientState :=
  { accessToken := some "tok", refreshToken := some "ref"
    storage := { access_token := some "tok", refresh_token := some "ref"
                 user := some userBananaEx } }

/-- A client holding an access token and a refresh token. -/
def stSession : ClientState :=
  { accessToken := some "A", refreshToken := some "R"
    storage := { access_token := some "A", refresh_token := some "R", user := none } }

/-- A client holding an access token but no refresh token. -/
def stNoRefresh : ClientState :=
  { accessToken := some "A", refreshToken := none
    storage := { access_token := some "A", refresh_token := none, user := none } }

/-- A client whose in-memory access token is the empty string: non-null, yet
falsy in JavaScript. -/
def stEmptyTok : ClientState :=
  { accessToken := some "", refreshToken := none
    storage := { access_token := none, refresh_token := none, user := none } }

/-- A client state as left behind by the login counterexample: the refresh
interceptor replaced the access token while the login response itself failed. -/
def stAfterCE : ClientState :=
  { accessToken := some "B", refreshToken := some "R"
    storage := { access_token := some "B", refresh_token := some "R", user := none } }

/-- A signup form whose password is eight lowercase letters: no uppercase
letter, no digit. -/
def signupCE : Signup.FormData :=
  { firstName := "Ana", lastName := "Silva", email := "a@b.c"
    password := "abcdefgh", confirmPassword := "abcdefgh" }

/-- An already-consumed password-reset token. -/
def resetTokenUsedEx : PasswordResetToken :=
  { token := "t1", userId := 7, expiresAt := 1000, usedAt := some 500
    email := "user@example.com" }

def resetStoreEx : List PasswordResetToken := [resetTokenUsedEx]

/-- C1: for every stored user and required role from the fixed set
guest(1) < analyst(2) < admin(3), `hasRole` returns true exactly when the
hierarchy level of the user's role is at least the required role's level
(an unknown user role ranking 0). -/
theorem hasRole_matches_role_hierarchy (st : ClientState) (u : User) (req : String)
    (hu : getCurrentUserFromStorage st = some u)
    (hreq : req = "guest" ∨ req = "analyst" ∨ req = "admin") :
    hasRole st req = true ↔ roleHierarchy req ≤ roleHierarchy u.role := by
  simp [hasRole, hu, ge_iff_le]

/-- Witness for C1: an admin passes the checks for `analyst` and for `guest`;
a guest fails the check for `admin`. -/
theorem hasRole_matches_role_hierarchy_witness :
    hasRole stAdminEx "analyst" = true ∧ hasRole stAdminEx "guest" = true
      ∧ hasRole stGuestEx "admin" = false := by
  refine ⟨?_, ?_, ?_⟩
  · exact (hasRole_matches_role_hierarchy stAdminEx userAdminEx "analyst" rfl
      (Or.inr (Or.inl rfl))).mpr (by decide)
  · exact (hasRole_matches_role_hierarchy stAdminEx userAdminEx "guest" rfl
      (Or.inl rfl)).mpr (by decide)
  · have h := hasRole_matches_role_hierarchy stGuestEx userGuestEx "admin" rfl
      (Or.inr (Or.inr rfl))
    revert h
    decide

/-- C7: `isAdmin` and `isAnalyst` agree with `hasRole` at `admin` and
`analyst`, and the `AdminRoute` guard's string-equality test returns the same
boolean as `hasRole "admin"` for every role string of a logged-in user. -/
theorem derived_predicates_agree (st : ClientState) (u : User)
    (hu : getCurrentUserFromStorage st = some u) :
    isAdmin st = hasRole st "admin" ∧ isAnalyst st = hasRole st "analyst"
      ∧ adminRouteAllows (getCurrentUserFromStorage st) = hasRole st "admin" := by
  refine ⟨rfl, rfl, ?_⟩
  unfold adminRouteAllows hasRole
  rw [hu]
  obtain ⟨r⟩ := u
  by_cases h1 : r = "guest"
  · subst h1; decide
  by_cases h2 : r = "analyst"
  · subst h2; decide
  by_cases h3 : r = "admin"
  · subst h3; decide
  show (r == "admin") = decide (roleHierarchy "admin" ≤ roleHierarchy r)
  have hr : roleHierarchy r = 0 := by
    unfold roleHierarchy
    simp only [beq_iff_eq]
    rw [if_neg h1, if_neg h2, if_neg h3]
  have hL : (r == "admin") = false := beq_eq_false_iff_ne.mpr h3
  rw [hr, hL]
  decide

/-- Witness for C7: the agreement at a concrete logged-in admin. -/
theorem derived_predicates_agree_witness :
    isAdmin stAdminEx = hasRole stAdminEx "admin"
      ∧ isAnalyst stAdminEx = hasRole stAdminEx "analyst"
      ∧ adminRouteAllows (getCurrentUserFromStorage stAdminEx)
          = hasRole stAdminEx "admin" :=
  derived_predicates_agree stAdminEx userAdminEx rfl

/-- Counterexample to C8 as stated: `"toString"` is outside the fixed role
set, yet `hasRole` returns false for a stored admin, not true — the bracket
lookup walks the prototype chain, finds the inherited `toString` function,
`|| 0` keeps that truthy value, and the `>=` comparison against it is
`NaN`-false. -/
theorem hasRole_inherited_prototype_key_counterexample :
    ("toString" ≠ "guest" ∧ "toString" ≠ "analyst" ∧ "toString" ≠ "admin")
      ∧ getCurrentUserFromStorage stAdminEx = some userAdminEx
      ∧ hasRoleJS stAdminEx "toString" = false := by
  decide

/-- C8 amended: for a required-role string that is neither a fixed role nor
an `Object.prototype` property name, the lookup yields `undefined`, `|| 0`
ranks it 0, and `hasRole` returns true for every stored user whose own role
string is not an inherited property name (such a user role ranks as a
number, and every number satisfies `>= 0`). -/
theorem hasRole_true_for_unknown_nonprototype_role (st : ClientState) (u : User)
    (req : String) (hu : getCurrentUserFromStorage st = some u)
    (h1 : req ≠ "guest") (h2 : req ≠ "analyst") (h3 : req ≠ "admin")
    (h4 : objectPrototypeKeys.contains req = false)
    (h5 : objectPrototypeKeys.contains u.role = false) :
    hasRoleJS st req = true := by
  have hlk : roleHierarchyLookup req = JSLookup.undef := by
    unfold roleHierarchyLookup
    simp only [beq_iff_eq]
    rw [if_neg h1, if_neg h2, if_neg h3, if_neg (by simpa using h4)]
  have hreq0 : roleLevelJS req = JSLookup.num 0 := by
    unfold roleLevelJS
    rw [hlk]
  have huser : ∃ n, roleLevelJS u.role = JSLookup.num n := by
    unfold roleLevelJS roleHierarchyLookup
    simp only [beq_iff_eq]
    split_ifs with g1 g2 g3 g4
    · exact ⟨1, rfl⟩
    · exact ⟨2, rfl⟩
    · exact ⟨3, rfl⟩
    · rw [h5] at g4
      exact Bool.noConfusion g4
    · exact ⟨0, rfl⟩
  obtain ⟨n, hn⟩ := huser
  unfold hasRoleJS
  rw [hu]
  show jsGE (roleLevelJS u.role) (roleLevelJS req) = true
  rw [hn, hreq0]
  simp [jsGE]

/-- Witness for C8's amended theorem: a user with an unknown,
non-prototype role string passes the check for an unknown, non-prototype
required role. -/
theorem hasRole_true_for_unknown_nonprototype_role_witness :
    hasRoleJS stUnknownEx "superuser" = true :=
  hasRole_true_for_unknown_nonprototype_role stUnknownEx userBananaEx "superuser"
    rfl (by decide) (by decide) (by decide) (by decide) (by decide)

/-- Counterexample to C9 as stated: an access token equal to the empty string
is non-null yet `isAuthenticated` returns false, because JavaScript `!!""` is
false. -/
theorem isAuthenticated_empty_string_counterexample :
    stEmptyTok.accessToken ≠ none ∧ isAuthenticated stEmptyTok = false := by
  decide

/-- C9 amended: `isAuthenticated` returns true exactly when a non-null,
non-empty access token string is held in memory; it reads neither the
refresh token nor the storage (and a fortiori no expiry or signature). -/
theorem isAuthenticated_iff_nonempty_token (st : ClientState) :
    (isAuthenticated st = true ↔ ∃ t, st.accessToken = some t ∧ t ≠ "")
      ∧ (∀ rt, isAuthenticated { st with refreshToken := rt } = isAuthenticated st)
      ∧ (∀ s, isAuthenticated { st with storage := s } = isAuthenticated st) := by
  refine ⟨?_, fun rt => rfl, fun s => rfl⟩
  cases h : st.accessToken with
  | none => simp [isAuthenticated, truthy, h]
  | some t => simp [isAuthenticated, truthy, h]

/-- Helper: against a server that answers every fetch with 401, as long as a
truthy refresh token is held neither `request` nor `refreshAccessToken`
returns within any amount of fuel — the mutual recursion
`request → refreshAccessToken → request → …` never bottoms out. -/
theorem srv401_no_fuel_suffices (fuel : Nat) :
    (∀ st k e, truthy st.refreshToken = true → request fuel srv401 st k e = none)
      ∧ (∀ st k, truthy st.refreshToken = true
          → refreshAccessToken fuel srv401 st k = none) := by
  induction fuel with
  | zero => exact ⟨fun st k e _ => rfl, fun st k _ => rfl⟩
  | succ n ih =>
    constructor
    · intro st k e h
      have hr := ih.2 st (k + 1) h
      simp [request, srv401, h, hr]
    · intro st k h
      have hr := ih.1 st k "/api/auth/refresh" h
      simp [refreshAccessToken, h, hr]

/-- C2: the claim's termination property fails in the code. When the server
answers the original request and then every refresh attempt with 401, the
embedded `request` function does not terminate: no amount of fuel makes it
return, because each 401 answer to `/api/auth/refresh` re-enters the
401-interceptor with the refresh token still held. -/
theorem request_diverges_when_refresh_gets_401 (fuel : Nat) (st : ClientState)
    (k : Nat) (endpoint : String) (h : truthy st.refreshToken = true) :
    request fuel srv401 st k endpoint = none :=
  (srv401_no_fuel_suffices fuel).1 st k endpoint h

/-- Witness for C2's divergence theorem at a concrete client state and fuel. -/
theorem request_diverges_when_refresh_gets_401_witness :
    truthy stSession.refreshToken = true
      ∧ request 1000 srv401 stSession 0 "/api/videos" = none :=
  ⟨by decide,
    request_diverges_when_refresh_gets_401 1000 stSession 0 "/api/videos" (by decide)⟩

/-- C3: whenever `logout` completes, the in-memory tokens are null and the
`access_token`, `refresh_token` and `user` storage entries are removed —
whatever the server did with the logout request (the `finally` block always
runs `clearTokensFromStorage`). -/
theorem logout_always_clears (fuel : Nat) (srv : Server) (st : ClientState)
    (k : Nat) (st' : ClientState) (k' : Nat)
    (h : logout fuel srv st k = some (st', k')) :
    st'.accessToken = none ∧ st'.refreshToken = none
      ∧ st'.storage.access_token = none ∧ st'.storage.refresh_token = none
      ∧ st'.storage.user = none := by
  have hclear : ∀ s t : ClientState, t = clearTokensFromStorage s →
      t.accessToken = none ∧ t.refreshToken = none
        ∧ t.storage.access_token = none ∧ t.storage.refresh_token = none
        ∧ t.storage.user = none := by
    rintro s t rfl
    simp [clearTokensFromStorage]
  cases fuel with
  | zero => simp [logout] at h
  | succ n =>
    rw [logout] at h
    split at h
    · cases hreq : request n srv st k "/api/auth/logout" with
      | none => rw [hreq] at h; simp at h
      | some v =>
        obtain ⟨r, st1, k1⟩ := v
        rw [hreq] at h
        simp only [Option.some.injEq, Prod.mk.injEq] at h
        exact hclear st1 st' h.1.symm
    · simp only [Option.some.injEq, Prod.mk.injEq] at h
      exact hclear st st' h.1.symm

/-- Witness for C3 at a concrete session and a server that accepts the
logout request. -/
theorem logout_always_clears_witness :
    (clearTokensFromStorage stSession).accessToken = none
      ∧ (clearTokensFromStorage stSession).refreshToken = none
      ∧ (clearTokensFromStorage stSession).storage.access_token = none
      ∧ (clearTokensFromStorage stSession).storage.refresh_token = none
      ∧ (clearTokensFromStorage stSession).storage.user = none :=
  logout_always_clears 2 srvOk stSession 0 (clearTokensFromStorage stSession) 1 rfl

/-- C4: `validateResetToken` fails closed — a lookup miss, an already-used
token, or an expired token all report `success = false`, and the reset page,
which consults it on mount, then does not render the reset form. -/
theorem validateResetToken_fails_closed (store : List PasswordResetToken)
    (now : Nat) (token : String)
    (h : store.find? (fun r => r.token == token) = none
      ∨ ∃ r, store.find? (fun r' => r'.token == token) = some r
          ∧ (r.usedAt ≠ none ∨ r.expiresAt ≤ now)) :
    (validateResetToken store now token).success = false
      ∧ resetPageRendersForm (some token) store now = false := by
  have hmain : (validateResetToken store now token).success = false := by
    rcases h with h | ⟨r, hr, hbad⟩
    · simp [validateResetToken, h]
    · rcases hbad with hused | hexp
      · have hu : r.usedAt.isSome = true := Option.ne_none_iff_isSome.mp hused
        simp [validateResetToken, hr, hu]
      · by_cases hu : r.usedAt.isSome = true <;>
          simp [validateResetToken, hr, hu, hexp]
  exact ⟨hmain, by simp [resetPageRendersForm, hmain]⟩

/-- Witness for C4: an already-consumed token is reported invalid and the
form is not rendered. -/
theorem validateResetToken_fails_closed_witness :
    (validateResetToken resetStoreEx 600 "t1").success = false
      ∧ resetPageRendersForm (some "t1") resetStoreEx 600 = false :=
  validateResetToken_fails_closed resetStoreEx 600 "t1"
    (Or.inr ⟨resetTokenUsedEx, by decide, Or.inl (by decide)⟩)

/-- Counterexample to C5 as stated: at signup, a password of eight lowercase
letters — no uppercase letter, no digit — is accepted: the form validates,
and no error is recorded under the password field. -/
theorem signup_accepts_password_without_upper_or_digit :
    (Signup.validateForm signupCE).2 = true
      ∧ (Signup.validateForm signupCE).1.password = none
      ∧ hasUppercase signupCE.password = false
      ∧ hasDigit signupCE.password = false
      ∧ 8 ≤ signupCE.password.length := by
  decide

/-- C5 amended: at password reset the client accepts the password exactly
when it is non-empty with length at least 8 and contains a lowercase letter,
an uppercase letter and a digit (a violation is keyed to the password
field); at signup the client checks only presence and length at least 8. -/
theorem password_policy_full_at_reset_length_only_at_signup :
    (∀ f : ResetPassword.FormData,
        (ResetPassword.validateForm f).1.newPassword = none
          ↔ (f.newPassword ≠ "" ∧ 8 ≤ f.newPassword.length
              ∧ hasLowercase f.newPassword = true
              ∧ hasUppercase f.newPassword = true
              ∧ hasDigit f.newPassword = true))
      ∧ (∀ f : Signup.FormData,
          (Signup.validateForm f).1.password = none
            ↔ (f.password ≠ "" ∧ 8 ≤ f.password.length)) := by
  constructor
  · intro f
    simp only [ResetPassword.validateForm]
    split_ifs with h1 h2 h3 h4 h5 <;>
      simp_all [beq_iff_eq, Nat.not_lt, Nat.lt_iff_add_one_le]
  · intro f
    simp only [Signup.validateForm]
    split_ifs with h1 h2 <;>
      simp_all [beq_iff_eq, Nat.not_lt, Nat.lt_iff_add_one_le]

/-- C6: the access token, when truthy, travels as an
`Authorization: Bearer <token>` header; the refresh token travels to
`/api/auth/refresh` and `/api/auth/logout` only in the JSON body, the
authorization header of every built request being a function of the access
token alone. -/
theorem tokens_transported_correctly (st : ClientState) :
    (∀ t, st.accessToken = some t → t ≠ "" →
        buildAuthHeader st = some ("Bearer " ++ t))
      ∧ (st.accessToken = none → buildAuthHeader st = none)
      ∧ (refreshRequest st).bodyRefreshToken = st.refreshToken
      ∧ (logoutRequest st).bodyRefreshToken = st.refreshToken
      ∧ (refreshRequest st).authHeader = buildAuthHeader st
      ∧ (logoutRequest st).authHeader = buildAuthHeader st
      ∧ (∀ st' : ClientState, st'.accessToken = st.accessToken →
          buildAuthHeader st' = buildAuthHeader st) := by
  refine ⟨?_, ?_, rfl, rfl, rfl, rfl, ?_⟩
  · intro t ht hne
    simp [buildAuthHeader, ht, hne]
  · intro h
    simp [buildAuthHeader, h]
  · intro st' h
    unfold buildAuthHeader
    rw [h]

/-- Witness for C6 at a concrete client: the header carries the access
token and the built refresh request carries the refresh token in its body. -/
theorem tokens_transported_correctly_witness :
    buildAuthHeader stSession = some ("Bearer " ++ "A")
      ∧ (refreshRequest stSession).bodyRefreshToken = stSession.refreshToken :=
  ⟨(tokens_transported_correctly stSession).1 "A" rfl (by decide),
    (tokens_transported_correctly stSession).2.2.1⟩

/-- Counterexample to C10 as stated: with a stale session (old access token
`A`, refresh token `R`) the login request is answered 401, the interceptor's
refresh succeeds with a new access token `B`, and the retried login returns a
body with `success = false`; `login` hands that failure response back, yet
the in-memory access token and the stored `access_token` entry have changed
from `A` to `B`. -/
theorem login_mutates_state_on_failed_response :
    login 10 srvLoginCE stSession 0 = some (Except.ok failBody, stAfterCE, 3)
      ∧ failBody.success = false
      ∧ stAfterCE.accessToken ≠ stSession.accessToken
      ∧ stAfterCE.storage.access_token ≠ stSession.storage.access_token := by
  refine ⟨rfl, rfl, by decide, by decide⟩

/-- C10 amended: `login` is atomic on failure provided its own HTTP response
is not captured by the 401-refresh interceptor (no truthy refresh token held,
or the response is ok or not a 401): if the returned body lacks success or a
truthy token pair, every token field and storage entry is exactly as before
the call. -/
theorem login_atomic_when_not_intercepted (fuel : Nat) (srv : Server)
    (st : ClientState) (k : Nat) (r : AuthResponse) (st' : ClientState) (k' : Nat)
    (hsrv : truthy st.refreshToken = false
      ∨ ∀ resp, srv k = some resp → resp.ok = true ∨ resp.status ≠ 401)
    (h : login fuel srv st k = some (Except.ok r, st', k'))
    (hfail : (r.success && truthy r.access_token && truthy r.refresh_token) = false) :
    st'.accessToken = st.accessToken ∧ st'.refreshToken = st.refreshToken
      ∧ st'.storage.access_token = st.storage.access_token
      ∧ st'.storage.refresh_token = st.storage.refresh_token
      ∧ st'.storage.user = st.storage.user := by
  cases fuel with
  | zero => simp [login, request] at h
  | succ n =>
    rw [login] at h
    rw [request] at h
    cases hsk : srv k with
    | none => rw [hsk] at h; simp at h
    | some resp =>
      rw [hsk] at h
      by_cases hok : resp.ok
      · simp only [hok, if_true] at h
        by_cases hguard : (resp.body.success && truthy resp.body.access_token
            && truthy resp.body.refresh_token) = true
        · rw [if_pos hguard] at h
          split at h <;>
            · simp only [Option.some.injEq, Prod.mk.injEq, Except.ok.injEq] at h
              obtain ⟨hr, -, -⟩ := h
              subst hr
              rw [hguard] at hfail
              exact absurd hfail (by decide)
        · rw [if_neg hguard] at h
          simp only [Option.some.injEq, Prod.mk.injEq, Except.ok.injEq] at h
          obtain ⟨-, hst, -⟩ := h
          subst hst
          exact ⟨rfl, rfl, rfl, rfl, rfl⟩
      · have hcond : (resp.status == 401 && truthy st.refreshToken) = false := by
          rcases hsrv with hrt | hsrv
          · simp [hrt]
          · rcases hsrv resp hsk with hok2 | hstat
            · exact absurd hok2 hok
            · simp [beq_eq_false_iff_ne.mpr hstat]
        simp only [hok, if_false, Bool.false_eq_true, hcond] at h
        simp at h

/-- Witness for C10's amended theorem: a login answered 200 with a failure
body, no refresh token held, leaves the state untouched. -/
theorem login_atomic_when_not_intercepted_witness :
    stNoRefresh.accessToken = stNoRefresh.accessToken
      ∧ stNoRefresh.refreshToken = stNoRefresh.refreshToken
      ∧ stNoRefresh.storage.access_token = stNoRefresh.storage.access_token
      ∧ stNoRefresh.storage.refresh_token = stNoRefresh.storage.refresh_token
      ∧ stNoRefresh.storage.user = stNoRefresh.storage.user :=
  login_atomic_when_not_intercepted 3 srvFailOk stNoRefresh 0 failBody stNoRefresh 1
    (Or.inl (by decide)) rfl (by decide)

end VideoTracking

